import Mathlib

/-!
Shallow embedding of the signalk-windy plugin (src/index.js).

JavaScript numbers are modelled as rationals (ℚ); the decimal-rounding
helpers (toFixed, Math.round) are modelled exactly on ℚ.  Host-side
effects (timer registration, the subscription, the HTTP request) are
modelled as explicit state: the ObservationBuffer record collects the
module-level mutable variables, and the submit cycle is a function from
buffer, clock and HTTP response to the new buffer together with the
optional request body that was issued.

One scoping fact of the source shapes the ingestor model: `options` is
declared only as the parameter of plugin.start, and processDelta is a
sibling function inside the module closure, so the switch case labels
`options.paths?.x` in processDelta read an undeclared identifier.
Switch case labels are evaluated in source order until one matches, so
an update on the literal first label (navigation.position) executes its
body, while every other path throws ReferenceError at the second label
before any assignment.  processDelta is therefore fallible and returns
Except.
-/

namespace Windy

/-- A Signal K position value: the object {latitude, longitude}. -/
structure SKPosition where
  latitude : ℚ
  longitude : ℚ
deriving DecidableEq

/-- A decoded value arriving on the subscription: either a position
object or a plain number. -/
inductive SKValue where
  | pos : SKPosition → SKValue
  | num : ℚ → SKValue
deriving DecidableEq

/-- Read the value as a position object. -/
def SKValue.asPos : SKValue → SKPosition
  | .pos p => p
  | .num _ => ⟨0, 0⟩

/-- A thrown JavaScript exception.  Reading the undeclared identifier
`options` in processDelta raises a ReferenceError (optional chaining
does not guard the base identifier). -/
inductive JsError where
  | referenceError : String → JsError
deriving DecidableEq

/-- The module-level mutable variables of the plugin closure.
Timestamps are milliseconds (Date.now()) modelled as ℕ. -/
structure ObservationBuffer where
  position : Option SKPosition
  windSpeed : List ℚ
  windGust : Option ℚ
  windDirection : Option ℤ
  waterTemperature : Option ℚ
  temperature : Option ℚ
  pressure : Option ℚ
  humidity : Option ℤ
  lastSuccessfulUpdate : Option ℕ
deriving DecidableEq

/-- The initial state of the mutable variables at plugin start. -/
def initialBuffer : ObservationBuffer :=
  { position := none, windSpeed := [], windGust := none, windDirection := none,
    waterTemperature := none, temperature := none, pressure := none,
    humidity := none, lastSuccessfulUpdate := none }

/-- JS Math.round: round half toward positive infinity. -/
def jsRound (q : ℚ) : ℤ := ⌊q + 1/2⌋

/-- JS Number.toFixed(2) followed by parseFloat: round to 2 decimals,
ties toward positive infinity. -/
def toFixed2 (q : ℚ) : ℚ := (jsRound (q * 100) : ℚ) / 100

/-- processDelta from src/index.js, for one path/value pair (the JS code
consults only data.updates[0].values[0]; batch unpacking is not
modelled).  The switch evaluates its case labels in source order: the
first label is the string literal navigation.position, whose body runs
on a match; otherwise the second label `options.paths?.position` is
evaluated, and since `options` is only the parameter of plugin.start and
not in scope here, that read throws ReferenceError before any later
label or body is reached.  So only a navigation.position update mutates
the buffer; every other path (the six remaining defaults, any configured
override, and unknown paths) throws and updates no field. -/
def processDelta (path : String) (value : SKValue) (b : ObservationBuffer) :
    Except JsError ObservationBuffer :=
  if path = "navigation.position" then
    Except.ok { b with position := some value.asPos }
  else
    Except.error (JsError.referenceError "options")

/-- Delivery of one update by the subscription manager: the exception is
thrown before any assignment, so an erroring update leaves the buffer
unchanged. -/
def deliverUpdate (path : String) (value : SKValue) (b : ObservationBuffer) :
    ObservationBuffer :=
  match processDelta path value b with
  | .ok b2 => b2
  | .error _ => b

/-- median from src/index.js: sort a copy ascending, take the middle
element (odd length) or the mean of the two middle elements (even). -/
def median (arr : List ℚ) : ℚ :=
  let mid := arr.length / 2
  let nums := arr.mergeSort
  if arr.length % 2 ≠ 0 then nums.getD mid 0
  else (nums.getD (mid - 1) 0 + nums.getD mid 0) / 2

/-- The mathematical median: middle of the ascending sort (via the
independent insertionSort implementation). -/
def medianSpec (arr : List ℚ) : ℚ :=
  let mid := arr.length / 2
  let nums := arr.insertionSort (· ≤ ·)
  if arr.length % 2 ≠ 0 then nums.getD mid 0
  else (nums.getD (mid - 1) 0 + nums.getD mid 0) / 2

/-- The array reads performed by the JS median body, with JS index
arithmetic (mid = floor(length / 2), and mid - 1 may be -1): every
accessed index must be in range. -/
def medianAccessesInBounds (arr : List ℚ) : Prop :=
  if arr.length % 2 ≠ 0 then
    0 ≤ (arr.length : ℤ) / 2 ∧ (arr.length : ℤ) / 2 < arr.length
  else
    (0 ≤ (arr.length : ℤ) / 2 - 1 ∧ (arr.length : ℤ) / 2 - 1 < arr.length) ∧
    (0 ≤ (arr.length : ℤ) / 2 ∧ (arr.length : ℤ) / 2 < arr.length)

instance (arr : List ℚ) : Decidable (medianAccessesInBounds arr) := by
  unfold medianAccessesInBounds
  infer_instance

/-- The early return of the submit tick: skip when position is unset, no
wind-speed sample accumulated, wind direction unset, or temperature unset. -/
def submitSkip (b : ObservationBuffer) : Bool :=
  b.position.isNone || b.windSpeed.isEmpty || b.windDirection.isNone || b.temperature.isNone

/-- The observation record placed in the request body. -/
structure ObservationRecord where
  station : ℕ
  temp : Option ℚ
  wind : ℚ
  gust : Option ℚ
  winddir : Option ℤ
  pressure : Option ℚ
  rh : Option ℤ
deriving DecidableEq

/-- Building the observations entry of the POST body from the buffer. -/
def buildObservation (stationId : ℕ) (b : ObservationBuffer) : ObservationRecord :=
  { station := stationId, temp := b.temperature, wind := median b.windSpeed,
    gust := b.windGust, winddir := b.windDirection, pressure := b.pressure,
    rh := b.humidity }

/-- Outcome of the HTTP POST as seen by the request callback: a transport
error flag and the response status code. -/
structure HttpResponse where
  error : Bool
  statusCode : ℕ
deriving DecidableEq

/-- The request callback in submitProcess: on no transport error and
status 200, record the time and clear the accumulated fields; otherwise
leave every variable untouched. -/
def submitCallback (now : ℕ) (resp : HttpResponse) (b : ObservationBuffer) :
    ObservationBuffer :=
  if resp.error = false ∧ resp.statusCode = 200 then
    { b with lastSuccessfulUpdate := some now, position := none, windSpeed := [],
             windGust := none, windDirection := none, waterTemperature := none,
             temperature := none, pressure := none, humidity := none }
  else
    b

/-- One tick of the submit interval: either skip (no request issued) or
issue the request and apply the callback to its outcome.  The second
component is the observation body of the request, or none when no HTTP
call is made. -/
def submitTick (stationId : ℕ) (now : ℕ) (resp : HttpResponse)
    (b : ObservationBuffer) : ObservationBuffer × Option ObservationRecord :=
  if submitSkip b then (b, none)
  else (submitCallback now resp b, some (buildObservation stationId b))

/-- Host-side registration state: the two recurring timers and the
subscription handed to the subscription manager. -/
structure PluginTimers where
  statusTimerActive : Bool
  submitTimerActive : Bool
  subscriptionActive : Bool
deriving DecidableEq

/-- plugin.start: abort when the API key is missing (falsy), otherwise
subscribe and create both interval timers. -/
def pluginStart (apiKey : String) (s : PluginTimers) : PluginTimers :=
  if apiKey = "" then s
  else { statusTimerActive := true, submitTimerActive := true, subscriptionActive := true }

/-- plugin.stop from src/index.js: clearInterval on statusProcess and on
submitProcess; the collected unsubscribes are never invoked. -/
def pluginStop (s : PluginTimers) : PluginTimers :=
  { s with statusTimerActive := false, submitTimerActive := false }

/-- timeSince bucket logic on whole elapsed seconds.  Each guard
`interval > 1` on the real quotient seconds / size is equivalent to
seconds > size, and Math.floor of the quotient is Nat division. -/
def timeSinceSeconds (seconds : ℕ) : String :=
  if 31536000 < seconds then toString (seconds / 31536000) ++ " years"
  else if 2592000 < seconds then toString (seconds / 2592000) ++ " months"
  else if 86400 < seconds then toString (seconds / 86400) ++ " days"
  else if 3600 < seconds then
    let time := seconds / 3600
    if time = 1 then toString time ++ " hour" else toString time ++ " hours"
  else if 60 < seconds then
    let time := seconds / 60
    if time = 1 then toString time ++ " minute" else toString time ++ " minutes"
  else
    toString seconds ++ " seconds"

/-- timeSince from src/index.js: millisecond timestamps, elapsed whole
seconds via floor division by 1000. -/
def timeSince (now date : ℕ) : String := timeSinceSeconds ((now - date) / 1000)

/-- Delivering a sequence of wind-speed samples at the default wind path
(the path plugin.start subscribes for wind speed). -/
def ingestWinds (vs : List ℚ) (b : ObservationBuffer) : ObservationBuffer :=
  vs.foldl
    (fun acc v => deliverUpdate "environment.wind.speedOverGround" (SKValue.num v) acc)
    b

/-- Maximum of a list of rationals (0 for the empty list). -/
def listMaxD : List ℚ → ℚ
  | [] => 0
  | x :: xs => xs.foldl max x

/-- A buffer cleared after a successful submission, carrying an arbitrary
lastSuccessfulUpdate stamp. -/
def clearedBuffer (last : Option ℕ) : ObservationBuffer :=
  { position := none, windSpeed := [], windGust := none, windDirection := none,
    waterTemperature := none, temperature := none, pressure := none,
    humidity := none, lastSuccessfulUpdate := last }

/-- A fully populated buffer, used to instantiate theorems. -/
def bFull : ObservationBuffer :=
  { position := some ⟨41, -70⟩, windSpeed := [5, 7], windGust := some 7,
    windDirection := some 90, waterTemperature := none, temperature := some 27,
    pressure := some 101325, humidity := some 46, lastSuccessfulUpdate := none }

/-- bFull with the wind direction missing. -/
def bNoDir : ObservationBuffer := { bFull with windDirection := none }

/-! ## Theorems -/

/-- C2: when the POST completes with status 200 and no transport error on
a cycle that issued a request, the tick sets lastSuccessfulUpdate to the
current time and clears position, windSpeed, windGust, windDirection,
waterTemperature, temperature, pressure and humidity; moreover no submit
tick and no ingestor update ever clears a set lastSuccessfulUpdate. -/
theorem submit_success_clears (st now : ℕ) (resp : HttpResponse) (b : ObservationBuffer)
    (hready : submitSkip b = false) (herr : resp.error = false)
    (hcode : resp.statusCode = 200) :
    (submitTick st now resp b).1 =
      { position := none, windSpeed := [], windGust := none, windDirection := none,
        waterTemperature := none, temperature := none, pressure := none,
        humidity := none, lastSuccessfulUpdate := some now } ∧
    (∀ (st2 now2 : ℕ) (resp2 : HttpResponse) (b2 : ObservationBuffer),
      b2.lastSuccessfulUpdate ≠ none →
        (submitTick st2 now2 resp2 b2).1.lastSuccessfulUpdate ≠ none) ∧
    (∀ (path : String) (value : SKValue) (b2 : ObservationBuffer),
      (deliverUpdate path value b2).lastSuccessfulUpdate = b2.lastSuccessfulUpdate) := by
  refine ⟨?_, ?_, ?_⟩
  · simp [submitTick, hready, submitCallback, herr, hcode]
  · intro st2 now2 resp2 b2 h
    unfold submitTick submitCallback
    split
    · simpa using h
    · split
      · simp
      · simpa using h
  · intro path value b2
    unfold deliverUpdate processDelta
    by_cases hp : path = "navigation.position"
    · rw [if_pos hp]
    · rw [if_neg hp]

/-- Witness for C2 at a concrete buffer and response. -/
theorem submit_success_clears_witness :
    submitSkip bFull = false ∧
    (submitTick 100 1000 ⟨false, 200⟩ bFull).1 =
      { position := none, windSpeed := [], windGust := none, windDirection := none,
        waterTemperature := none, temperature := none, pressure := none,
        humidity := none, lastSuccessfulUpdate := some 1000 } :=
  ⟨rfl, (submit_success_clears 100 1000 ⟨false, 200⟩ bFull rfl rfl rfl).1⟩

/-- C3: when the POST fails (transport error or any non-200 status) the
tick leaves the whole buffer unchanged. -/
theorem submit_failure_preserves (st now : ℕ) (resp : HttpResponse) (b : ObservationBuffer)
    (hfail : resp.error = true ∨ resp.statusCode ≠ 200) :
    (submitTick st now resp b).1 = b := by
  unfold submitTick
  split
  · rfl
  · show submitCallback now resp b = b
    unfold submitCallback
    rw [if_neg]
    rintro ⟨h1, h2⟩
    rcases hfail with hf | hf
    · rw [hf] at h1
      exact Bool.noConfusion h1
    · exact hf h2

/-- Witness for C3 at a concrete buffer and failing response. -/
theorem submit_failure_preserves_witness :
    (submitTick 100 1000 ⟨true, 500⟩ bFull).1 = bFull :=
  submit_failure_preserves 100 1000 ⟨true, 500⟩ bFull (Or.inl rfl)

/-- C4: when position is unset, or no wind-speed sample is accumulated,
or wind direction is unset, or temperature is unset, the tick issues no
HTTP request and leaves every buffer field unchanged. -/
theorem submit_missing_skips (st now : ℕ) (resp : HttpResponse) (b : ObservationBuffer)
    (h : b.position = none ∨ b.windSpeed = [] ∨ b.windDirection = none ∨
         b.temperature = none) :
    submitTick st now resp b = (b, none) := by
  have hskip : submitSkip b = true := by
    unfold submitSkip
    rcases h with h | h | h | h <;> simp [h]
  unfold submitTick
  rw [if_pos hskip]

/-- Witness for C4: a buffer missing only the wind direction. -/
theorem submit_missing_skips_witness :
    submitTick 100 1000 ⟨false, 200⟩ bNoDir = (bNoDir, none) :=
  submit_missing_skips 100 1000 ⟨false, 200⟩ bNoDir (Or.inr (Or.inr (Or.inl rfl)))

/-- C8 counterexample: after a start with a valid key, plugin.stop leaves
the host subscription registered (the collected unsubscribe callbacks are
never invoked), so the claim that stop deregisters the subscription fails. -/
theorem stop_leaves_subscription :
    ¬ (pluginStop (pluginStart "key" ⟨false, false, false⟩)).subscriptionActive = false := by
  decide

/-- C8 amended: plugin.stop deregisters both recurring timers, but the
host subscription registered at start stays active. -/
theorem stop_deregisters_timers (k : String) (s : PluginTimers) (hk : ¬ k = "") :
    pluginStop (pluginStart k s) =
      { statusTimerActive := false, submitTimerActive := false,
        subscriptionActive := true } := by
  unfold pluginStart pluginStop
  rw [if_neg hk]

/-- Witness for the amended C8 at a concrete key and timer state. -/
theorem stop_deregisters_timers_witness :
    pluginStop (pluginStart "key" ⟨true, true, true⟩) =
      { statusTimerActive := false, submitTimerActive := false,
        subscriptionActive := true } :=
  stop_deregisters_timers "key" ⟨true, true, true⟩ (by decide)

/-- Helper: every path other than navigation.position throws the
ReferenceError on the undeclared identifier `options`. -/
lemma processDelta_throws (path : String) (value : SKValue) (b : ObservationBuffer)
    (hp : ¬ path = "navigation.position") :
    processDelta path value b = Except.error (JsError.referenceError "options") := by
  unfold processDelta
  rw [if_neg hp]

/-- C1 (code bug): evaluation of the ingestor at the failing inputs.
Reading the undeclared identifier `options` in the second case label
throws ReferenceError for every path except navigation.position, so a
default-path update such as wind speed or outside temperature, and any
configured override path, updates no field at all; only the
navigation.position update stores its value.  The claimed seven-path
mapped-field dispatch is the evident intent (plugin.start subscribes
precisely these paths for processDelta to handle) but not the code's
behavior. -/
theorem ingest_throws_reference_error :
    processDelta "environment.wind.speedOverGround" (SKValue.num 5) initialBuffer =
      Except.error (JsError.referenceError "options") ∧
    processDelta "environment.outside.temperature" (SKValue.num 300.15) initialBuffer =
      Except.error (JsError.referenceError "options") ∧
    processDelta "environment.outside.pressure" (SKValue.num 101325) initialBuffer =
      Except.error (JsError.referenceError "options") ∧
    processDelta "custom.wind" (SKValue.num 5) initialBuffer =
      Except.error (JsError.referenceError "options") ∧
    processDelta "navigation.position" (SKValue.pos ⟨41, -70⟩) initialBuffer =
      Except.ok { initialBuffer with position := some ⟨41, -70⟩ } :=
  ⟨rfl, rfl, rfl, rfl, rfl⟩

/-- C7: timeSince buckets elapsed seconds by strict thresholds in
descending order (years, months, days, hours, minutes, seconds), integer
division truncating, with singular wording only for hours and minutes;
90 s gives "1 minute", 7200 s gives "2 hours", 90000 s gives "1 days". -/
theorem timeSince_buckets (s : ℕ) :
    (31536000 < s → timeSinceSeconds s = toString (s / 31536000) ++ " years") ∧
    (2592000 < s → s ≤ 31536000 → timeSinceSeconds s = toString (s / 2592000) ++ " months") ∧
    (86400 < s → s ≤ 2592000 → timeSinceSeconds s = toString (s / 86400) ++ " days") ∧
    (3600 < s → s ≤ 86400 →
      timeSinceSeconds s =
        if s / 3600 = 1 then toString (s / 3600) ++ " hour"
        else toString (s / 3600) ++ " hours") ∧
    (60 < s → s ≤ 3600 →
      timeSinceSeconds s =
        if s / 60 = 1 then toString (s / 60) ++ " minute"
        else toString (s / 60) ++ " minutes") ∧
    (s ≤ 60 → timeSinceSeconds s = toString s ++ " seconds") ∧
    timeSince 90000 0 = "1 minute" ∧ timeSince 7200000 0 = "2 hours" ∧
    timeSince 90000000 0 = "1 days" := by
  refine ⟨?_, ?_, ?_, ?_, ?_, ?_, ?_, ?_, ?_⟩
  · intro h1
    unfold timeSinceSeconds
    rw [if_pos h1]
  · intro h1 h2
    unfold timeSinceSeconds
    rw [if_neg (by omega), if_pos h1]
  · intro h1 h2
    unfold timeSinceSeconds
    rw [if_neg (by omega), if_neg (by omega), if_pos h1]
  · intro h1 h2
    unfold timeSinceSeconds
    rw [if_neg (by omega), if_neg (by omega), if_neg (by omega), if_pos h1]
  · intro h1 h2
    unfold timeSinceSeconds
    rw [if_neg (by omega), if_neg (by omega), if_neg (by omega), if_neg (by omega),
      if_pos h1]
  · intro h1
    unfold timeSinceSeconds
    rw [if_neg (by omega), if_neg (by omega), if_neg (by omega), if_neg (by omega),
      if_neg (by omega)]
  · rfl
  · rfl
  · rfl

/-- Witness for C7 at 7200 elapsed seconds. -/
theorem timeSince_buckets_witness :
    3600 < 7200 ∧ (7200 : ℕ) ≤ 86400 ∧
    timeSinceSeconds 7200 =
      (if 7200 / 3600 = 1 then toString (7200 / 3600) ++ " hour"
       else toString (7200 / 3600) ++ " hours") :=
  ⟨by decide, by decide, (timeSince_buckets 7200).2.2.2.1 (by decide) (by decide)⟩

/-- C9 (code bug): evaluation of the humidity update at the failing
input.  A humidity update on its default path throws ReferenceError at
the second case label before the humidity case is reached, so nothing is
stored and the buffer is unchanged; the intended conversion in the
unreachable case body, Math.round(100 * 0.455), is 46 as the claim
states. -/
theorem humidity_update_throws :
    processDelta "environment.outside.humidity" (SKValue.num 0.455) bFull =
      Except.error (JsError.referenceError "options") ∧
    (deliverUpdate "environment.outside.humidity" (SKValue.num 0.455) bFull).humidity =
      bFull.humidity ∧
    deliverUpdate "environment.outside.humidity" (SKValue.num 0.455) bFull = bFull ∧
    jsRound (100 * (0.455 : ℚ)) = 46 := by
  refine ⟨rfl, rfl, rfl, ?_⟩
  unfold jsRound
  norm_num

/-- C10: whenever a submit tick actually issues a request (builds an
observation), the windSpeed list handed to median is non-empty and both
array reads of the median body are in range; on the empty list the body
would read index -1, which is out of range. -/
theorem median_access_safe (st now : ℕ) (resp : HttpResponse) (b : ObservationBuffer)
    (obs : ObservationRecord) (h : (submitTick st now resp b).2 = some obs) :
    medianAccessesInBounds b.windSpeed ∧ ¬ medianAccessesInBounds ([] : List ℚ) := by
  have hne : b.windSpeed ≠ [] := by
    intro hws
    have hskip : submitSkip b = true := by
      unfold submitSkip
      rw [hws]
      simp
    unfold submitTick at h
    rw [if_pos hskip] at h
    simp at h
  refine ⟨?_, by decide⟩
  have hlen : 0 < b.windSpeed.length := List.length_pos.mpr hne
  unfold medianAccessesInBounds
  split
  · omega
  · omega

/-- Witness for C10 at a concrete submit tick that issues a request. -/
theorem median_access_safe_witness :
    medianAccessesInBounds bFull.windSpeed ∧ ¬ medianAccessesInBounds ([] : List ℚ) :=
  median_access_safe 100 0 ⟨false, 200⟩ bFull (buildObservation 100 bFull) rfl

/-- Helper: ascending mergeSort agrees with ascending insertionSort. -/
lemma mergeSort_eq_insertion (l : List ℚ) : l.mergeSort = l.insertionSort (· ≤ ·) :=
  List.eq_of_perm_of_sorted
    ((List.mergeSort_perm l _).trans (List.perm_insertionSort _ l).symm)
    (List.sorted_mergeSort' l)
    (List.sorted_insertionSort _ l)

/-- Helper: permuted inputs have the same ascending mergeSort. -/
lemma mergeSort_eq_of_perm {l l2 : List ℚ} (h : List.Perm l l2) :
    l.mergeSort = l2.mergeSort :=
  List.eq_of_perm_of_sorted
    ((List.mergeSort_perm l _).trans (h.trans (List.mergeSort_perm l2 _).symm))
    (List.sorted_mergeSort' l)
    (List.sorted_mergeSort' l2)

/-- C5: on non-empty sample lists, median returns the middle element of
the ascending sort (odd length) or the mean of the two middle elements
(even length), and the result is invariant under permutation of the input
(the JS body sorts a copy of its argument and never mutates it). -/
theorem median_matches_spec (l : List ℚ) (h : l ≠ []) :
    median l = medianSpec l ∧
    ∀ l2 : List ℚ, List.Perm l2 l → median l2 = median l := by
  constructor
  · simp only [median, medianSpec, mergeSort_eq_insertion]
  · intro l2 hperm
    simp only [median]
    rw [mergeSort_eq_of_perm hperm, hperm.length_eq]

/-- Witness for C5 at a concrete list and permutation. -/
theorem median_matches_spec_witness :
    ([3, 1, 2] : List ℚ) ≠ [] ∧ median [2, 3, 1] = median [3, 1, 2] :=
  ⟨by decide, (median_matches_spec [3, 1, 2] (by decide)).2 [2, 3, 1] (by decide)⟩

/-- C6 (code bug): evaluation of wind-speed ingestion at the failing
input.  A wind-speed update on its default path throws ReferenceError at
the second case label, so no sample is ever appended and windGust is
never set: after ingesting 2 then 1 into a cleared buffer, windGust is
still unset and windSpeed still empty, instead of the claimed maximum of
the appended samples (tracking the running maximum in the unreachable
wind case body is the evident intent). -/
theorem windGust_never_set :
    processDelta "environment.wind.speedOverGround" (SKValue.num 2) (clearedBuffer none) =
      Except.error (JsError.referenceError "options") ∧
    (ingestWinds [2, 1] (clearedBuffer none)).windGust = none ∧
    (ingestWinds [2, 1] (clearedBuffer none)).windSpeed = [] ∧
    ¬ (ingestWinds [2, 1] (clearedBuffer none)).windGust =
        some (listMaxD (List.map toFixed2 [2, 1])) := by
  refine ⟨rfl, rfl, rfl, ?_⟩
  rw [show (ingestWinds [2, 1] (clearedBuffer none)).windGust = none from rfl]
  exact fun h => Option.noConfusion h

end Windy
